import Mathlib

/-!
Verification of the NeutronTrader scheduled strategy-execution engine.

The definitions below are a shallow embedding of the engine found in the
repository's Electron main process (the `start-trading-bot` /
`stop-trading-bot` IPC handlers, the scheduled tick callback, the helper
functions `convertToCronSchedule`, `executeTradeStrategy`,
`executeSimpleMovingAverage`, `executeRSIStrategy`,
`executeBollingerBandsStrategy`, `calculateSMA`) and of
`calculateRSI` from `src/utils/tradingStrategies.js`.

Modelling conventions:
- JavaScript numbers are embedded as exact rationals (`ℚ`); the claims
  under study concern comparison/branch structure and algebraic bounds,
  not floating-point rounding.
- The mutable per-bot state object is threaded explicitly; each tick is a
  pure function from the gateway's responses and the previous state to a
  `TickOutcome` recording the new state, the key-value writes (in order),
  the UI events replied (in order), the market orders placed through the
  gateway during the tick, and whether the recurring job was cancelled.
- Fallible gateway calls are embedded as `Except String` values carried by
  a `Gateway` record (one per tick); a thrown JS error corresponds to the
  `.error` case.
- Where the source file defines a function twice (it defines both
  `convertToCronSchedule` and `executeTradeStrategy` twice), the later
  definition wins in JavaScript, so the later one is embedded here.
-/

namespace NeutronTrader

/-- Trading signal action: `'BUY' | 'SELL' | 'HOLD'` string constants of the source. -/
inductive Action where
  | BUY
  | SELL
  | HOLD
  deriving DecidableEq, Repr

/-- String rendering of an action, as the source stores it (`result.action`). -/
def Action.toStr : Action → String
  | .BUY => "BUY"
  | .SELL => "SELL"
  | .HOLD => "HOLD"

/-- A strategy's output: `{ action, reason }` as returned by the strategy functions. -/
structure Signal where
  action : Action
  reason : String
  deriving DecidableEq, Repr

/-- A formatted candle, as produced by the tick's mapping of the gateway's
raw candle rows (`openTime/open/high/low/close/volume`; `open` is a Lean
keyword so the field is called `openPrice`). -/
structure Candle where
  openTime : Int
  openPrice : ℚ
  high : ℚ
  low : ℚ
  close : ℚ
  volume : ℚ
  deriving DecidableEq, Repr

/-- Body of the `calculateSMA` loop at index `i`: the mean of
`prices.slice(i - period + 1, i + 1)` (a window of `period` closes ending at `i`). -/
def smaAt (prices : List ℚ) (period i : Nat) : ℚ :=
  (((prices.drop (i + 1 - period)).take period).sum) / (period : ℚ)

/-- `calculateSMA(prices, period)` from the main process: one windowed mean
for every `i` from `period - 1` to `prices.length - 1`. -/
def calculateSMA (prices : List ℚ) (period : Nat) : List ℚ :=
  (List.range' (period - 1) (prices.length - (period - 1))).map (smaAt prices period)

/-- `executeSimpleMovingAverage(candles)`: 5/20 SMA crossover on closing prices. -/
def executeSimpleMovingAverage (candles : List Candle) : Signal :=
  let closePrices := candles.map Candle.close
  let shortSMA := calculateSMA closePrices 5
  let longSMA := calculateSMA closePrices 20
  if shortSMA.length < 2 ∨ longSMA.length < 2 then
    { action := .HOLD, reason := "Insufficient data for SMA calculation" }
  else
    let currentShort := shortSMA.getD (shortSMA.length - 1) 0
    let previousShort := shortSMA.getD (shortSMA.length - 2) 0
    let currentLong := longSMA.getD (longSMA.length - 1) 0
    let previousLong := longSMA.getD (longSMA.length - 2) 0
    if previousShort ≤ previousLong ∧ currentShort > currentLong then
      { action := .BUY, reason := "SMA bullish crossover detected" }
    else if previousShort ≥ previousLong ∧ currentShort < currentLong then
      { action := .SELL, reason := "SMA bearish crossover detected" }
    else
      { action := .HOLD, reason := "No SMA crossover signal" }

/-- `executeRSIStrategy(candles)` from the main process: a placeholder that
ignores its input ("Simplified RSI implementation"). -/
def executeRSIStrategy (_candles : List Candle) : Signal :=
  { action := .HOLD, reason := "RSI strategy placeholder" }

/-- `executeBollingerBandsStrategy(candles, currentPrice)` from the main
process: a placeholder that ignores its input. -/
def executeBollingerBandsStrategy (_candles : List Candle) (_currentPrice : ℚ) : Signal :=
  { action := .HOLD, reason := "Bollinger Bands strategy placeholder" }

/-- The guarded average-loss denominator `avgLoss || 1` of `calculateRSI`
(`0` is the only falsy rational). -/
def lossDen (avgLoss : ℚ) : ℚ :=
  if avgLoss = 0 then 1 else avgLoss

/-- One RSI value `100 - (100 / (1 + avgGain / (avgLoss || 1)))`. -/
def rsiVal (avgGain avgLoss : ℚ) : ℚ :=
  100 - (100 / (1 + avgGain / lossDen avgLoss))

/-- Body of the update loop of `calculateRSI` at index `i`, acting on the
accumulator `(avgGain, avgLoss, rsiValues)`. -/
def rsiStep (gains losses : List ℚ) (period : Nat) (acc : ℚ × ℚ × List ℚ) (i : Nat) :
    ℚ × ℚ × List ℚ :=
  let avgGain := (acc.1 * ((period : ℚ) - 1) + gains.getD (i - 1) 0) / (period : ℚ)
  let avgLoss := (acc.2.1 * ((period : ℚ) - 1) + losses.getD (i - 1) 0) / (period : ℚ)
  (avgGain, avgLoss, acc.2.2 ++ [rsiVal avgGain avgLoss])

/-- `calculateRSI(prices, period)` from `src/utils/tradingStrategies.js`:
deltas of consecutive prices, clipped into gains and losses, seeded averages
over the first `period` deltas, then the smoothed update loop for
`i = period .. prices.length - 1`. -/
def calculateRSI (prices : List ℚ) (period : Nat) : List ℚ :=
  let deltas := (List.range (prices.length - 1)).map (fun i =>
    prices.getD (i + 1) 0 - prices.getD i 0)
  let gains := deltas.map (fun d => if d > 0 then d else 0)
  let losses := deltas.map (fun d => if d < 0 then -d else 0)
  let avgGain0 := (gains.take period).sum / (period : ℚ)
  let avgLoss0 := (losses.take period).sum / (period : ℚ)
  ((List.range' period (prices.length - period)).foldl (rsiStep gains losses period)
    (avgGain0, avgLoss0, [rsiVal avgGain0 avgLoss0])).2.2

/-- JavaScript `parseInt` restricted to the shapes the scheduler feeds it:
the value of the leading decimal digits of the string, or `none` for `NaN`
when the string has no leading digits. -/
def jsParseIntLeading (s : String) : Option Nat :=
  let ds := s.data.takeWhile Char.isDigit
  if ds.isEmpty then none
  else some (ds.foldl (fun acc c => acc * 10 + (c.toNat - 48)) 0)

/-- Template interpolation of a possibly-NaN number, as in the source's
cron string templates. -/
def jsNumToString : Option Nat → String
  | some n => toString n
  | none => "NaN"

/-- `convertToCronSchedule(interval)` from the main process: switch on the
last character (`interval.slice(-1)`), interpolating
`parseInt(interval.slice(0, -1))` into a cron template, with a 15-minute
default when the last character is none of `m`/`h`/`d`. -/
def convertToCronSchedule (interval : String) : String :=
  let unit := interval.data.getLast?
  let value := jsNumToString (jsParseIntLeading (String.mk interval.data.dropLast))
  if unit = some 'm' then "*/" ++ value ++ " * * * *"
  else if unit = some 'h' then "0 */" ++ value ++ " * * *"
  else if unit = some 'd' then "0 0 */" ++ value ++ " * *"
  else "*/15 * * * *"

/-- Does the character list `s` start with `sub`? Helper for substring search. -/
def startsWithL : List Char → List Char → Bool
  | _, [] => true
  | [], _ :: _ => false
  | a :: as, b :: bs => a == b && startsWithL as bs

/-- Does the character list `s` contain `sub` as a contiguous run? -/
def containsL (s sub : List Char) : Bool :=
  startsWithL s sub ||
    match s with
    | [] => false
    | _ :: rest => containsL rest sub

/-- Substring containment on strings (case-sensitive, as string search is
case-sensitive in the claims' reading). -/
def strContainsSub (s sub : String) : Bool :=
  containsL s.data sub.data

/-- JSON-serializable value, the currency of the Key-Value Store
(`storageService.saveSetting` / `saveTrade` store plain objects that are
`JSON.stringify`-ed to disk, without any encryption or redaction). -/
inductive JVal where
  | str (s : String)
  | num (q : ℚ)
  | int (n : Int)
  | nat (n : Nat)
  | bool (b : Bool)
  | null
  | obj (fields : List (String × JVal))
  | arr (items : List JVal)

mutual

/-- All string atoms occurring anywhere in a stored JSON value (used to ask
whether a persisted value contains a plaintext credential). -/
def JVal.strings : JVal → List String
  | .str s => [s]
  | .num _ => []
  | .int _ => []
  | .nat _ => []
  | .bool _ => []
  | .null => []
  | .obj fs => stringsOfFields fs
  | .arr xs => stringsOfList xs

/-- String atoms of an object's field list. -/
def stringsOfFields : List (String × JVal) → List String
  | [] => []
  | (_, v) :: rest => v.strings ++ stringsOfFields rest

/-- String atoms of an array's item list. -/
def stringsOfList : List JVal → List String
  | [] => []
  | v :: rest => v.strings ++ stringsOfList rest

end

/-- The API credential pair carried inside every bot configuration
(`config.apiConfig` with `apiKey`/`apiSecret`). -/
structure ApiConfig where
  apiKey : String
  apiSecret : String
  deriving DecidableEq, Repr

/-- The bot configuration received by the `start-trading-bot` handler. -/
structure BotConfig where
  apiConfig : ApiConfig
  symbol : String
  strategy : String
  amount : ℚ
  interval : String
  deriving DecidableEq, Repr

/-- JSON fields of a config object, in source order of the object literal
(the `...config` spread reproduces exactly these fields). -/
def BotConfig.fieldsJ (c : BotConfig) : List (String × JVal) :=
  [("apiConfig", .obj [("apiKey", .str c.apiConfig.apiKey),
                       ("apiSecret", .str c.apiConfig.apiSecret)]),
   ("symbol", .str c.symbol),
   ("strategy", .str c.strategy),
   ("amount", .num c.amount),
   ("interval", .str c.interval)]

/-- JSON serialization of a config object. -/
def BotConfig.toJ (c : BotConfig) : JVal :=
  .obj c.fieldsJ

/-- The stored value of `saveSetting('bot_config_<id>', {...config, botId,
startTime, status})` in the start handler. -/
def botConfigJ (c : BotConfig) (botId : String) (now : Int) (status : String) : JVal :=
  .obj (c.fieldsJ ++ [("botId", .str botId), ("startTime", .int now), ("status", .str status)])

/-- The in-memory `botState` object created by the start handler and mutated
by each tick (`orders` and `positions` stay empty throughout the engine, so
they are not threaded as data here; they serialize as empty objects). -/
structure BotState where
  config : BotConfig
  botId : String
  startTime : Int
  lastCheck : Option Int
  lastSignal : Option Action
  tradesExecuted : Nat
  totalProfit : ℚ
  status : String
  deriving DecidableEq, Repr

/-- JSON of a nullable timestamp. -/
def optIntJ : Option Int → JVal
  | none => .null
  | some n => .int n

/-- JSON of a nullable signal action (stored as its string form). -/
def optActionJ : Option Action → JVal
  | none => .null
  | some a => .str a.toStr

/-- JSON fields of the `botState` object, excluding `status` (which the
stop path overrides via the `{...state, status: 'stopped', ...}` spread). -/
def BotState.fieldsJ (s : BotState) : List (String × JVal) :=
  [("config", s.config.toJ),
   ("botId", .str s.botId),
   ("startTime", .int s.startTime),
   ("lastCheck", optIntJ s.lastCheck),
   ("lastSignal", optActionJ s.lastSignal),
   ("tradesExecuted", .nat s.tradesExecuted),
   ("totalProfit", .num s.totalProfit),
   ("positions", .obj []),
   ("orders", .obj [])]

/-- The stored value of `saveSetting('bot_state_<id>', botState)`. -/
def BotState.toJ (s : BotState) : JVal :=
  .obj (s.fieldsJ ++ [("status", .str s.status)])

/-- The stored value of `saveSetting('bot_final_state_<id>', {...bot.state,
status: 'stopped', stopTime: Date.now()})` in `stopTradingBot`. -/
def finalStateJ (s : BotState) (now : Int) : JVal :=
  .obj (s.fieldsJ ++ [("status", .str "stopped"), ("stopTime", .int now)])

/-- The stored value of `saveSetting('active_bot_<id>', {botId, symbol,
strategy, startTime, status: 'active'})` in the start handler. -/
def activeBotJ (botId symbol strategy : String) (now : Int) : JVal :=
  .obj [("botId", .str botId), ("symbol", .str symbol), ("strategy", .str strategy),
        ("startTime", .int now), ("status", .str "active")]

/-- The stored value of `storageService.saveTrade({...})` in the tick's
non-HOLD branch; `profit` is `result.profit || 0` and `result` never carries
a `profit` field, so it is stored as `0`. -/
def tradeJ (id botId symbol : String) (side : Action) (quantity price : ℚ) (ts : Int)
    (strategy reason : String) : JVal :=
  .obj [("id", .str id), ("botId", .str botId), ("symbol", .str symbol),
        ("side", .str side.toStr), ("quantity", .num quantity), ("price", .num price),
        ("timestamp", .int ts), ("strategy", .str strategy), ("reason", .str reason),
        ("profit", .num 0), ("source", .str "trading_bot_auto")]

/-- The stored value of `saveSetting('bot_error_<id>_<ts>', {botId, error,
timestamp, config})` in the tick's catch branch. -/
def botErrorJ (botId err : String) (ts : Int) (c : BotConfig) : JVal :=
  .obj [("botId", .str botId), ("error", .str err), ("timestamp", .int ts),
        ("config", c.toJ)]

/-- One tick's worth of gateway responses: `BinanceAPI.prices`,
`BinanceAPI.candles` and (at start time) `BinanceAPI.accountInfo`; a
rejected promise is the `.error` case carrying the error message. -/
structure Gateway where
  prices : Except String ℚ
  candles : Except String (List Candle)
  accountInfo : Except String Unit

/-- The value returned by `executeTradeStrategy` on success: `{action,
price, quantity, reason, timestamp}` (no `profit` field is ever set). -/
structure StratResult where
  action : Action
  price : ℚ
  quantity : ℚ
  reason : String
  deriving DecidableEq, Repr

/-- `executeTradeStrategy(config, botState)` (the later of the two
definitions in the source, which is the one JavaScript hoisting keeps):
fetch price and candles, dispatch on `config.strategy`, and return the
signal together with price and the configured amount. Any gateway failure
rejects the promise (`.error`). -/
def executeTradeStrategy (gw : Gateway) (config : BotConfig) : Except String StratResult := do
  let currentPrice ← gw.prices
  let candles ← gw.candles
  let signal :=
    if config.strategy = "simpleMovingAverage" then
      executeSimpleMovingAverage candles
    else if config.strategy = "relativeStrengthIndex" then
      executeRSIStrategy candles
    else if config.strategy = "bollingerBands" then
      executeBollingerBandsStrategy candles currentPrice
    else
      { action := .HOLD, reason := "Unknown strategy" }
  pure { action := signal.action, price := currentPrice, quantity := config.amount,
         reason := signal.reason }

/-- Events replied to the renderer process over the `trading-status`,
`trade-executed` and `trading-error` channels. -/
inductive Event where
  | tradeExecuted (botId symbol : String) (side : Action) (price quantity : ℚ) (reason : String)
  | statusRunning (botId : String) (lastCheck : Option Int) (signal : Option Action)
      (reason : String) (tradesExecuted : Nat) (totalProfit : ℚ)
  | statusStarted (botId message : String)
  | statusStopped (botId : Option String) (message : String)
  | tradingError (message : String)
  deriving DecidableEq, Repr

/-- Everything one scheduled tick (the `schedule.scheduleJob` callback)
does: the bot state after the tick, the Key-Value Store writes in order,
the events replied in order, the market orders placed through the gateway
during the tick (symbol, side, quantity), and whether the tick cancelled
the recurring job. -/
structure TickOutcome where
  state : BotState
  writes : List (String × JVal)
  events : List Event
  gatewayOrders : List (String × Action × ℚ)
  jobCancelled : Bool

/-- The scheduled tick callback registered by `start-trading-bot`. On a
strategy result: update `lastCheck`/`lastSignal`; if the action is not
HOLD, increment `tradesExecuted` (the `if (result.profit)` accumulation is
dead code because `result` has no `profit` field), save a trade record and
reply `trade-executed`; always save `bot_state_<id>` and reply a running
status. On a thrown error: save a timestamped `bot_error_<id>_<ts>` record
and reply `trading-error`; the job is never cancelled. No market order is
placed anywhere in this callback. -/
def tickBot (gw : Gateway) (config : BotConfig) (botId : String) (now : Int)
    (st : BotState) : TickOutcome :=
  match executeTradeStrategy gw config with
  | .error msg =>
    { state := st,
      writes := [("bot_error_" ++ botId ++ "_" ++ toString now, botErrorJ botId msg now config)],
      events := [.tradingError ("[" ++ botId ++ "] Trade execution failed: " ++ msg)],
      gatewayOrders := [],
      jobCancelled := false }
  | .ok result =>
    let st1 := { st with lastCheck := some now, lastSignal := some result.action }
    if result.action = .HOLD then
      { state := st1,
        writes := [("bot_state_" ++ botId, st1.toJ)],
        events := [.statusRunning botId (some now) (some result.action) result.reason
          st1.tradesExecuted st1.totalProfit],
        gatewayOrders := [],
        jobCancelled := false }
    else
      let st2 := { st1 with tradesExecuted := st1.tradesExecuted + 1 }
      let tradeId := "bot_" ++ botId ++ "_" ++ toString now
      { state := st2,
        writes := [("trade_" ++ tradeId,
                    tradeJ tradeId botId config.symbol result.action result.quantity
                      result.price now config.strategy result.reason),
                   ("bot_state_" ++ botId, st2.toJ)],
        events := [.tradeExecuted botId config.symbol result.action result.price
                     result.quantity result.reason,
                   .statusRunning botId (some now) (some result.action) result.reason
                     st2.tradesExecuted st2.totalProfit],
        gatewayOrders := [],
        jobCancelled := false }

/-- The fresh `botState` built by the start handler. -/
def initialBotState (config : BotConfig) (botId : String) (now : Int) : BotState :=
  { config := config, botId := botId, startTime := now, lastCheck := none,
    lastSignal := none, tradesExecuted := 0, totalProfit := 0, status := "active" }

/-- Result of the `start-trading-bot` handler: KV writes, replies, the
registered bot (id and fresh state) and the cron schedule registered. -/
structure StartOutcome where
  writes : List (String × JVal)
  events : List Event
  registered : Option (String × BotState)
  scheduled : Option String

/-- The `start-trading-bot` handler: validate the config (symbol and
strategy present — `apiConfig` presence is structural here), persist
`bot_config_<id>` (note: before the API connectivity test), probe
`BinanceAPI.accountInfo`, and on success register the scheduled job,
persist `active_bot_<id>` and reply a started status. -/
def startTradingBot (gw : Gateway) (config : BotConfig) (now : Int) : StartOutcome :=
  if config.symbol = "" ∨ config.strategy = "" then
    { writes := [], events := [.tradingError "Invalid configuration provided"],
      registered := none, scheduled := none }
  else
    let botId := config.symbol ++ "-" ++ toString now
    let cfgWrite := ("bot_config_" ++ botId, botConfigJ config botId now "starting")
    match gw.accountInfo with
    | .error msg =>
      { writes := [cfgWrite],
        events := [.tradingError ("API connection failed: " ++ msg)],
        registered := none, scheduled := none }
    | .ok _ =>
      { writes := [cfgWrite,
                   ("active_bot_" ++ botId, activeBotJ botId config.symbol config.strategy now)],
        events := [.statusStarted botId
          ("Enhanced bot started for " ++ config.symbol ++ " using "
            ++ config.strategy ++ " strategy")],
        registered := some (botId, initialBotState config botId now),
        scheduled := some (convertToCronSchedule config.interval) }

/-- One entry of the in-memory `activeBots` map: `{job, config, state,
createdAt}`; `hasJob` records whether the `job` handle is present (the
`bot && bot.job` check of `stopTradingBot`). -/
structure RegEntry where
  hasJob : Bool
  config : BotConfig
  state : BotState

/-- The in-memory registry `activeBots`, as an insertion-ordered
association list (JavaScript `Map` iterates in insertion order). -/
abbrev Registry := List (String × RegEntry)

/-- `activeBots.get(botId)`. -/
def lookupBot : Registry → String → Option RegEntry
  | [], _ => none
  | (k, e) :: rest, botId => if k = botId then some e else lookupBot rest botId

/-- `activeBots.delete(botId)`. -/
def removeBot (reg : Registry) (botId : String) : Registry :=
  reg.filter (fun e => e.1 ≠ botId)

/-- Result of `stopTradingBot`: the registry afterwards, the KV writes, the
`job.cancel()` calls made, and the returned flag. -/
structure StopOutcome where
  registry : Registry
  writes : List (String × JVal)
  cancelled : List String
  stopped : Bool

/-- `stopTradingBot(botId)`: if the bot is registered with a job handle,
cancel the job, remove it from the registry, persist
`bot_final_state_<id>` (status `stopped`, `stopTime` now) and null out
`active_bot_<id>`, returning `true`; otherwise do nothing and return
`false`. -/
def stopTradingBot (reg : Registry) (botId : String) (now : Int) : StopOutcome :=
  match lookupBot reg botId with
  | some bot =>
    if bot.hasJob then
      { registry := removeBot reg botId,
        writes := [("bot_final_state_" ++ botId, finalStateJ bot.state now),
                   ("active_bot_" ++ botId, .null)],
        cancelled := [botId],
        stopped := true }
    else
      { registry := reg, writes := [], cancelled := [], stopped := false }
  | none => { registry := reg, writes := [], cancelled := [], stopped := false }

/-- Result of `stopAllTradingBots`: like `StopOutcome` but with the count
of bots actually stopped. -/
structure StopAllOutcome where
  registry : Registry
  writes : List (String × JVal)
  cancelled : List String
  count : Nat

/-- Loop body of `stopAllTradingBots`: stop one id, accumulate effects and
count the successes. -/
def stopAllStep (now : Int) (acc : StopAllOutcome) (botId : String) : StopAllOutcome :=
  let r := stopTradingBot acc.registry botId now
  { registry := r.registry, writes := acc.writes ++ r.writes,
    cancelled := acc.cancelled ++ r.cancelled,
    count := acc.count + (if r.stopped then 1 else 0) }

/-- `stopAllTradingBots()`: snapshot the registered ids, stop each in turn,
and return how many were actually stopped. -/
def stopAllTradingBots (reg : Registry) (now : Int) : StopAllOutcome :=
  (reg.map Prod.fst).foldl (stopAllStep now)
    { registry := reg, writes := [], cancelled := [], count := 0 }

/-! Concrete inputs used by witnesses and counterexamples. -/

/-- A flat candle at a given close (only the close matters to the strategies). -/
def mkCandle (c : ℚ) : Candle :=
  { openTime := 0, openPrice := c, high := c, low := c, close := c, volume := 0 }

/-- Twenty-one closes: flat at 10, then a jump to 60 — the 5-period SMA
crosses the 20-period SMA from (equal-)below to strictly above at the last
candle. -/
def xoverCloses : List ℚ :=
  [10, 10, 10, 10, 10, 10, 10, 10, 10, 10,
   10, 10, 10, 10, 10, 10, 10, 10, 10, 10, 60]

/-- Candle window realizing `xoverCloses`. -/
def xoverCandles : List Candle :=
  xoverCloses.map mkCandle

/-- A placeholder credential pair; the literals stand for the user's
plaintext key material. -/
def demoApi : ApiConfig :=
  { apiKey := "DEMO-PLAINTEXT-KEY", apiSecret := "DEMO-PLAINTEXT-SECRET" }

/-- A well-formed start configuration (the spec's concrete scenario). -/
def demoConfig : BotConfig :=
  { apiConfig := demoApi, symbol := "BNBUSDT", strategy := "simpleMovingAverage",
    amount := 1 / 10, interval := "15m" }

/-- A gateway whose fetches all succeed, serving the crossing-up window. -/
def gwXover : Gateway :=
  { prices := .ok 60, candles := .ok xoverCandles, accountInfo := .ok () }

/-- A gateway whose price fetch fails. -/
def gwDown : Gateway :=
  { prices := .error "Network unreachable", candles := .ok [], accountInfo := .ok () }

/-- Sixteen strictly decreasing closes: every delta is a loss, so every RSI
value over period 14 equals 0 (deep oversold). -/
def downCloses : List ℚ :=
  [16, 15, 14, 13, 12, 11, 10, 9, 8, 7, 6, 5, 4, 3, 2, 1]

/-- Candle window realizing `downCloses`. -/
def downCandles : List Candle :=
  downCloses.map mkCandle

/-- A configuration whose strategy id is registered in the UI strategy list
(`macd` in `tradingStrategies.js`) but not in the engine's dispatch switch. -/
def unknownConfig : BotConfig :=
  { demoConfig with strategy := "macd" }

/-- A registry entry with a live job handle. -/
def regEntryA : RegEntry :=
  { hasJob := true, config := demoConfig,
    state := initialBotState demoConfig "BNBUSDT-1" 1 }

/-- A second registry entry with a live job handle. -/
def regEntryB : RegEntry :=
  { hasJob := true, config := unknownConfig,
    state := initialBotState unknownConfig "ETHUSDT-2" 2 }

/-- A two-bot registry. -/
def reg2 : Registry :=
  [("BNBUSDT-1", regEntryA), ("ETHUSDT-2", regEntryB)]

/-! Supporting lemmas. -/

/-- Length of `calculateSMA`: one value per loop index. -/
lemma calculateSMA_length (prices : List ℚ) (p : Nat) :
    (calculateSMA prices p).length = prices.length - (p - 1) := by
  simp [calculateSMA]

/-- Indexing `calculateSMA`: entry `k` is the windowed mean ending at
position `p - 1 + k`. -/
lemma calculateSMA_getD (prices : List ℚ) (p k : Nat) (h : k < prices.length - (p - 1)) :
    (calculateSMA prices p).getD k 0 = smaAt prices p (p - 1 + k) := by
  rw [calculateSMA, List.getD_eq_getElem?_getD, List.getElem?_map]
  simp [List.getElem?_range', h]

end NeutronTrader

namespace NeutronTrader

/-- C2. For every candle window with at least 21 candles, the crossover
(simple moving average) strategy returns BUY exactly when the short
(5-period) average was ≤ the long (20-period) average on the previous
candle and is strictly greater on the current candle; SELL on the
symmetric crossing-down; HOLD in every other case. -/
theorem sma_crossover_characterization (candles : List Candle) (h : 21 ≤ candles.length) :
    ((executeSimpleMovingAverage candles).action = .BUY ↔
      (smaAt (candles.map Candle.close) 5 (candles.length - 2) ≤
         smaAt (candles.map Candle.close) 20 (candles.length - 2) ∧
       smaAt (candles.map Candle.close) 20 (candles.length - 1) <
         smaAt (candles.map Candle.close) 5 (candles.length - 1))) ∧
    ((executeSimpleMovingAverage candles).action = .SELL ↔
      (smaAt (candles.map Candle.close) 20 (candles.length - 2) ≤
         smaAt (candles.map Candle.close) 5 (candles.length - 2) ∧
       smaAt (candles.map Candle.close) 5 (candles.length - 1) <
         smaAt (candles.map Candle.close) 20 (candles.length - 1))) ∧
    ((executeSimpleMovingAverage candles).action = .HOLD ↔
      (¬(smaAt (candles.map Candle.close) 5 (candles.length - 2) ≤
           smaAt (candles.map Candle.close) 20 (candles.length - 2) ∧
         smaAt (candles.map Candle.close) 20 (candles.length - 1) <
           smaAt (candles.map Candle.close) 5 (candles.length - 1)) ∧
       ¬(smaAt (candles.map Candle.close) 20 (candles.length - 2) ≤
           smaAt (candles.map Candle.close) 5 (candles.length - 2) ∧
         smaAt (candles.map Candle.close) 5 (candles.length - 1) <
           smaAt (candles.map Candle.close) 20 (candles.length - 1)))) := by
  have hlen : (candles.map Candle.close).length = candles.length := candles.length_map _
  have h5 : (calculateSMA (candles.map Candle.close) 5).length = candles.length - 4 := by
    rw [calculateSMA_length, hlen]
  have h20 : (calculateSMA (candles.map Candle.close) 20).length = candles.length - 19 := by
    rw [calculateSMA_length, hlen]
  have e1 : (calculateSMA (candles.map Candle.close) 5).getD
      ((calculateSMA (candles.map Candle.close) 5).length - 1) 0
      = smaAt (candles.map Candle.close) 5 (candles.length - 1) := by
    rw [h5, calculateSMA_getD _ _ _ (by rw [hlen]; omega)]
    congr 1
    omega
  have e2 : (calculateSMA (candles.map Candle.close) 5).getD
      ((calculateSMA (candles.map Candle.close) 5).length - 2) 0
      = smaAt (candles.map Candle.close) 5 (candles.length - 2) := by
    rw [h5, calculateSMA_getD _ _ _ (by rw [hlen]; omega)]
    congr 1
    omega
  have e3 : (calculateSMA (candles.map Candle.close) 20).getD
      ((calculateSMA (candles.map Candle.close) 20).length - 1) 0
      = smaAt (candles.map Candle.close) 20 (candles.length - 1) := by
    rw [h20, calculateSMA_getD _ _ _ (by rw [hlen]; omega)]
    congr 1
    omega
  have e4 : (calculateSMA (candles.map Candle.close) 20).getD
      ((calculateSMA (candles.map Candle.close) 20).length - 2) 0
      = smaAt (candles.map Candle.close) 20 (candles.length - 2) := by
    rw [h20, calculateSMA_getD _ _ _ (by rw [hlen]; omega)]
    congr 1
    omega
  have hguard : ¬((calculateSMA (candles.map Candle.close) 5).length < 2 ∨
      (calculateSMA (candles.map Candle.close) 20).length < 2) := by
    rw [h5, h20]
    omega
  unfold executeSimpleMovingAverage
  simp only [if_neg hguard, e1, e2, e3, e4]
  by_cases hb : smaAt (candles.map Candle.close) 5 (candles.length - 2) ≤
      smaAt (candles.map Candle.close) 20 (candles.length - 2) ∧
      smaAt (candles.map Candle.close) 20 (candles.length - 1) <
      smaAt (candles.map Candle.close) 5 (candles.length - 1)
  · simp only [if_pos hb]
    refine ⟨by simp [hb], ?_, ?_⟩
    · constructor
      · intro habs
        exact absurd habs (by decide)
      · intro hs
        exact absurd hs.2 (not_lt.mpr hb.2.le)
    · constructor
      · intro habs
        exact absurd habs (by decide)
      · intro hh
        exact absurd hb hh.1
  · simp only [if_neg hb]
    by_cases hs : smaAt (candles.map Candle.close) 20 (candles.length - 2) ≤
        smaAt (candles.map Candle.close) 5 (candles.length - 2) ∧
        smaAt (candles.map Candle.close) 5 (candles.length - 1) <
        smaAt (candles.map Candle.close) 20 (candles.length - 1)
    · simp only [if_pos hs]
      refine ⟨?_, by simp [hs], ?_⟩
      · constructor
        · intro habs
          exact absurd habs (by decide)
        · intro hbc
          exact absurd hbc hb
      · constructor
        · intro habs
          exact absurd habs (by decide)
        · intro hh
          exact absurd hs hh.2
    · simp only [if_neg hs]
      exact ⟨by simpa using hb, by simpa using hs, by simp [hb, hs]⟩

/-- C2 witness: on the concrete crossing-up window `xoverCandles`
(flat at 10, then 60) the hypotheses hold and the strategy answers BUY. -/
theorem sma_crossover_characterization_witness :
    21 ≤ xoverCandles.length ∧ (executeSimpleMovingAverage xoverCandles).action = .BUY := by
  refine ⟨by decide, ((sma_crossover_characterization xoverCandles (by decide)).1).mpr ⟨?_, ?_⟩⟩
  · show smaAt (xoverCandles.map Candle.close) 5 (xoverCandles.length - 2) ≤
      smaAt (xoverCandles.map Candle.close) 20 (xoverCandles.length - 2)
    norm_num [xoverCandles, xoverCloses, mkCandle, smaAt]
  · show smaAt (xoverCandles.map Candle.close) 20 (xoverCandles.length - 1) <
      smaAt (xoverCandles.map Candle.close) 5 (xoverCandles.length - 1)
    norm_num [xoverCandles, xoverCloses, mkCandle, smaAt]

/-- C3 counterexample: on a window shorter than its lookback (here the
empty window), the RSI strategy does return HOLD but its reason is the
placeholder text, which does not contain "insufficient data"; even the SMA
strategy's reason capitalizes "Insufficient", so the literal phrase is
absent there too. -/
theorem insufficient_data_reason_counterexample :
    ([] : List Candle).length < 15 ∧
    executeRSIStrategy [] = { action := .HOLD, reason := "RSI strategy placeholder" } ∧
    strContainsSub "RSI strategy placeholder" "insufficient data" = false ∧
    strContainsSub "Insufficient data for SMA calculation" "insufficient data" = false := by
  refine ⟨by decide, rfl, by decide, by decide⟩

/-- C3 amended. For every candle window shorter than 21 candles, each
built-in strategy returns HOLD and never throws; the SMA strategy's reason
is "Insufficient data for SMA calculation" (capitalized), while the RSI and
Bollinger placeholder strategies return their fixed placeholder reasons for
every window length. -/
theorem short_window_strategies_hold (candles : List Candle) (price : ℚ)
    (h : candles.length < 21) :
    executeSimpleMovingAverage candles =
      { action := .HOLD, reason := "Insufficient data for SMA calculation" } ∧
    executeRSIStrategy candles = { action := .HOLD, reason := "RSI strategy placeholder" } ∧
    executeBollingerBandsStrategy candles price =
      { action := .HOLD, reason := "Bollinger Bands strategy placeholder" } := by
  refine ⟨?_, rfl, rfl⟩
  have hg : (calculateSMA (candles.map Candle.close) 5).length < 2 ∨
      (calculateSMA (candles.map Candle.close) 20).length < 2 := by
    rw [calculateSMA_length, calculateSMA_length, List.length_map]
    omega
  simp only [executeSimpleMovingAverage]
  rw [if_pos hg]

/-- C3 amended witness: the empty window is shorter than every lookback and
all three strategies answer HOLD on it. -/
theorem short_window_strategies_hold_witness :
    ([] : List Candle).length < 21 ∧
    executeSimpleMovingAverage [] =
      { action := .HOLD, reason := "Insufficient data for SMA calculation" } ∧
    executeRSIStrategy [] = { action := .HOLD, reason := "RSI strategy placeholder" } ∧
    executeBollingerBandsStrategy [] 0 =
      { action := .HOLD, reason := "Bollinger Bands strategy placeholder" } :=
  ⟨by decide, short_window_strategies_hold [] 0 (by decide)⟩

/-- C5. The engine's oscillator strategy is a placeholder: on sixteen
strictly decreasing closes every RSI value over the default 14-period
lookback is 0 (deep oversold, far below 30), yet `executeRSIStrategy`
still answers HOLD with its placeholder reason instead of BUY. -/
theorem rsi_strategy_ignores_oversold :
    (∀ r ∈ calculateRSI downCloses 14, r = 0) ∧
    (0 : ℚ) < 30 ∧
    16 = downCloses.length ∧
    executeRSIStrategy downCandles = { action := .HOLD, reason := "RSI strategy placeholder" } ∧
    (executeRSIStrategy downCandles).action ≠ .BUY := by
  refine ⟨?_, by norm_num, by decide, rfl, by decide⟩
  intro r hr
  norm_num [calculateRSI, downCloses, rsiStep, rsiVal, lossDen,
    List.range, List.range.loop, List.range'] at hr
  simp_all

/-- C6 counterexample: the interval string "xm" is not one of the
recognized forms, yet `convertToCronSchedule` does not fall back to the
15-minute default — it interpolates `parseInt("x") = NaN` into the
minutes template. -/
theorem cron_fallback_counterexample :
    ("xm" ∉ (["1m", "5m", "15m", "1h", "4h", "1d"] : List String)) ∧
    convertToCronSchedule "xm" = "*/NaN * * * *" ∧
    convertToCronSchedule "xm" ≠ "*/15 * * * *" := by
  refine ⟨by decide, by decide, by decide⟩

/-- C6 amended. The recognized intervals map as the claim states (1m each
minute; 5m/15m every N minutes; 1h/4h every N hours; 1d daily at midnight),
and the 15-minute fallback applies exactly to strings whose last character
is none of m/h/d; a string ending in m/h/d without leading digits instead
yields a template containing NaN (see the counterexample). -/
theorem cron_mapping_and_fallback :
    convertToCronSchedule "1m" = "*/1 * * * *" ∧
    convertToCronSchedule "5m" = "*/5 * * * *" ∧
    convertToCronSchedule "15m" = "*/15 * * * *" ∧
    convertToCronSchedule "1h" = "0 */1 * * *" ∧
    convertToCronSchedule "4h" = "0 */4 * * *" ∧
    convertToCronSchedule "1d" = "0 0 */1 * *" ∧
    (∀ interval : String, interval.data.getLast? ≠ some 'm' →
      interval.data.getLast? ≠ some 'h' → interval.data.getLast? ≠ some 'd' →
      convertToCronSchedule interval = "*/15 * * * *") := by
  refine ⟨by decide, by decide, by decide, by decide, by decide, by decide, ?_⟩
  intro interval hm hh hd
  simp [convertToCronSchedule, hm, hh, hd]

/-- C6 amended witness: "7x" ends in a character that is none of m/h/d and
lands on the 15-minute fallback. -/
theorem cron_mapping_and_fallback_witness :
    ("7x".data.getLast? ≠ some 'm') ∧ ("7x".data.getLast? ≠ some 'h') ∧
    ("7x".data.getLast? ≠ some 'd') ∧ convertToCronSchedule "7x" = "*/15 * * * *" :=
  ⟨by decide, by decide, by decide,
    cron_mapping_and_fallback.2.2.2.2.2.2 "7x" (by decide) (by decide) (by decide)⟩

/-- A default lookup into a list of nonnegative rationals is nonnegative. -/
lemma getD_nonneg (l : List ℚ) (i : Nat) (h : ∀ x ∈ l, 0 ≤ x) : 0 ≤ l.getD i 0 := by
  rw [List.getD_eq_getElem?_getD]
  cases hx : l[i]? with
  | none => simp
  | some v =>
    obtain ⟨hi, hv⟩ := List.getElem?_eq_some.mp hx
    exact hv ▸ (by simpa using h _ (List.getElem_mem hi))

/-- The guarded average-loss denominator is positive on nonnegative input. -/
lemma lossDen_pos (l : ℚ) (hl : 0 ≤ l) : 0 < lossDen l := by
  unfold lossDen
  split_ifs with h
  · norm_num
  · exact lt_of_le_of_ne hl (Ne.symm h)

/-- The guarded average-loss denominator is never zero, for any input. -/
lemma lossDen_ne_zero (avgLoss : ℚ) : lossDen avgLoss ≠ 0 := by
  unfold lossDen
  split_ifs with h
  · norm_num
  · exact h

/-- A single RSI value over nonnegative averages lies in [0, 100]. -/
lemma rsiVal_bounds (g l : ℚ) (hg : 0 ≤ g) (hl : 0 ≤ l) :
    0 ≤ rsiVal g l ∧ rsiVal g l ≤ 100 := by
  have hd := lossDen_pos l hl
  have hq : 0 ≤ g / lossDen l := div_nonneg hg hd.le
  have h1 : (0 : ℚ) < 1 + g / lossDen l := by linarith
  have h2 : 100 / (1 + g / lossDen l) ≤ 100 := div_le_self (by norm_num) (by linarith)
  have h3 : 0 < 100 / (1 + g / lossDen l) := div_pos (by norm_num) h1
  unfold rsiVal
  constructor <;> linarith

/-- The smoothed-update loop of `calculateRSI` preserves nonnegativity of
the running averages and keeps every emitted value inside [0, 100]. -/
lemma rsiFold_bounds (gains losses : List ℚ) (p : Nat) (hp : 0 < p)
    (hgs : ∀ x ∈ gains, 0 ≤ x) (hls : ∀ x ∈ losses, 0 ≤ x) :
    ∀ (idxs : List Nat) (g l : ℚ) (acc : List ℚ), 0 ≤ g → 0 ≤ l →
      (∀ r ∈ acc, 0 ≤ r ∧ r ≤ 100) →
      ∀ r ∈ (idxs.foldl (rsiStep gains losses p) (g, l, acc)).2.2, 0 ≤ r ∧ r ≤ 100 := by
  intro idxs
  induction idxs with
  | nil =>
    intro g l acc _ _ hacc r hr
    exact hacc r (by simpa using hr)
  | cons i rest ih =>
    intro g l acc hg hl hacc
    have hp1 : (1 : ℚ) ≤ (p : ℚ) := by exact_mod_cast hp
    have hga : 0 ≤ (g * ((p : ℚ) - 1) + gains.getD (i - 1) 0) / (p : ℚ) := by
      apply div_nonneg _ (by linarith)
      have h1 := getD_nonneg gains (i - 1) hgs
      have h2 : 0 ≤ g * ((p : ℚ) - 1) := mul_nonneg hg (by linarith)
      linarith
    have hla : 0 ≤ (l * ((p : ℚ) - 1) + losses.getD (i - 1) 0) / (p : ℚ) := by
      apply div_nonneg _ (by linarith)
      have h1 := getD_nonneg losses (i - 1) hls
      have h2 : 0 ≤ l * ((p : ℚ) - 1) := mul_nonneg hl (by linarith)
      linarith
    rw [List.foldl_cons]
    have hstep : rsiStep gains losses p (g, l, acc) i =
        ((g * ((p : ℚ) - 1) + gains.getD (i - 1) 0) / (p : ℚ),
         (l * ((p : ℚ) - 1) + losses.getD (i - 1) 0) / (p : ℚ),
         acc ++ [rsiVal ((g * ((p : ℚ) - 1) + gains.getD (i - 1) 0) / (p : ℚ))
            ((l * ((p : ℚ) - 1) + losses.getD (i - 1) 0) / (p : ℚ))]) := rfl
    rw [hstep]
    apply ih _ _ _ hga hla
    intro r hr
    rcases List.mem_append.mp hr with hmem | hmem
    · exact hacc r hmem
    · rcases List.mem_singleton.mp hmem with rfl
      exact rsiVal_bounds _ _ hga hla

/-- C10. For every price series of length at least `period + 1` (with a
positive period), every value produced by `calculateRSI` lies within
[0, 100], and the average-loss denominator, guarded by `|| 1`, is never
zero. -/
theorem calculateRSI_bounded (prices : List ℚ) (period : Nat) (hp : 0 < period)
    (hlen : period + 1 ≤ prices.length) :
    (∀ r ∈ calculateRSI prices period, 0 ≤ r ∧ r ≤ 100) ∧
    (∀ avgLoss : ℚ, lossDen avgLoss ≠ 0) := by
  refine ⟨?_, lossDen_ne_zero⟩
  intro r hr
  simp only [calculateRSI] at hr
  have hG : ∀ x ∈ ((List.range (prices.length - 1)).map (fun i =>
      prices.getD (i + 1) 0 - prices.getD i 0)).map (fun d => if d > 0 then d else 0),
      0 ≤ x := by
    intro x hx
    obtain ⟨d, _, rfl⟩ := List.mem_map.mp hx
    split_ifs with hd
    · exact hd.le
    · exact le_refl 0
  have hL : ∀ x ∈ ((List.range (prices.length - 1)).map (fun i =>
      prices.getD (i + 1) 0 - prices.getD i 0)).map (fun d => if d < 0 then -d else 0),
      0 ≤ x := by
    intro x hx
    obtain ⟨d, _, rfl⟩ := List.mem_map.mp hx
    split_ifs with hd
    · linarith
    · exact le_refl 0
  have hpq : (0 : ℚ) ≤ (period : ℚ) := by positivity
  have hg0 : 0 ≤ ((((List.range (prices.length - 1)).map (fun i =>
      prices.getD (i + 1) 0 - prices.getD i 0)).map
        (fun d => if d > 0 then d else 0)).take period).sum / (period : ℚ) :=
    div_nonneg (List.sum_nonneg (fun x hx => hG x (List.take_subset _ _ hx))) hpq
  have hl0 : 0 ≤ ((((List.range (prices.length - 1)).map (fun i =>
      prices.getD (i + 1) 0 - prices.getD i 0)).map
        (fun d => if d < 0 then -d else 0)).take period).sum / (period : ℚ) :=
    div_nonneg (List.sum_nonneg (fun x hx => hL x (List.take_subset _ _ hx))) hpq
  refine rsiFold_bounds _ _ _ hp hG hL _ _ _ _ hg0 hl0 ?_ r hr
  intro v hv
  rcases List.mem_singleton.mp hv with rfl
  exact rsiVal_bounds _ _ hg0 hl0

/-- C10 witness: a concrete four-price series with period 2 satisfies the
hypotheses and every produced value is within bounds. -/
theorem calculateRSI_bounded_witness :
    0 < 2 ∧ 2 + 1 ≤ ([1, 2, 1, 3] : List ℚ).length ∧
    (∀ r ∈ calculateRSI [1, 2, 1, 3] 2, 0 ≤ r ∧ r ≤ 100) :=
  ⟨by decide, by decide, (calculateRSI_bounded [1, 2, 1, 3] 2 (by decide) (by decide)).1⟩

/-- C4. When a tick's strategy execution throws, the tick boundary catches
it: the only persisted write is a timestamped `bot_error_<botId>_<now>`
record carrying the bot id, message and timestamp; exactly one
`trading-error` event is replied; the bot's state is untouched; and the
recurring job is not cancelled, so subsequent ticks still fire. -/
theorem tick_error_caught (gw : Gateway) (config : BotConfig) (botId : String)
    (now : Int) (st : BotState) (msg : String)
    (h : executeTradeStrategy gw config = .error msg) :
    tickBot gw config botId now st =
      { state := st,
        writes := [("bot_error_" ++ botId ++ "_" ++ toString now,
          botErrorJ botId msg now config)],
        events := [.tradingError ("[" ++ botId ++ "] Trade execution failed: " ++ msg)],
        gatewayOrders := [],
        jobCancelled := false } := by
  simp [tickBot, h]

/-- C4 witness: a gateway whose price fetch rejects produces exactly the
caught-error outcome on a concrete tick. -/
theorem tick_error_caught_witness :
    executeTradeStrategy gwDown demoConfig = .error "Network unreachable" ∧
    tickBot gwDown demoConfig "BNBUSDT-1000" 1000
        (initialBotState demoConfig "BNBUSDT-1000" 1000) =
      { state := initialBotState demoConfig "BNBUSDT-1000" 1000,
        writes := [("bot_error_" ++ "BNBUSDT-1000" ++ "_" ++ toString (1000 : Int),
          botErrorJ "BNBUSDT-1000" "Network unreachable" 1000 demoConfig)],
        events := [.tradingError ("[" ++ "BNBUSDT-1000" ++ "] Trade execution failed: "
          ++ "Network unreachable")],
        gatewayOrders := [],
        jobCancelled := false } :=
  ⟨rfl, tick_error_caught gwDown demoConfig "BNBUSDT-1000" 1000
    (initialBotState demoConfig "BNBUSDT-1000" 1000) "Network unreachable" rfl⟩

/-- C9. A tick whose configuration carries a strategy id outside the three
built-in ones evaluates to HOLD with reason "Unknown strategy", and the
tick completes normally: state updated (`lastCheck`/`lastSignal`),
`bot_state_<id>` persisted, one running-status event replied, no error,
no cancellation. -/
theorem unknown_strategy_tick (gw : Gateway) (config : BotConfig) (botId : String)
    (now : Int) (st : BotState) (price : ℚ) (candles : List Candle)
    (hs1 : config.strategy ≠ "simpleMovingAverage")
    (hs2 : config.strategy ≠ "relativeStrengthIndex")
    (hs3 : config.strategy ≠ "bollingerBands")
    (hp : gw.prices = .ok price) (hc : gw.candles = .ok candles) :
    executeTradeStrategy gw config =
      .ok { action := .HOLD, price := price, quantity := config.amount,
            reason := "Unknown strategy" } ∧
    tickBot gw config botId now st =
      { state := { st with lastCheck := some now, lastSignal := some .HOLD },
        writes := [("bot_state_" ++ botId,
          BotState.toJ { st with lastCheck := some now, lastSignal := some .HOLD })],
        events := [.statusRunning botId (some now) (some .HOLD) "Unknown strategy"
          st.tradesExecuted st.totalProfit],
        gatewayOrders := [],
        jobCancelled := false } := by
  have he : executeTradeStrategy gw config =
      .ok { action := .HOLD, price := price, quantity := config.amount,
            reason := "Unknown strategy" } := by
    simp only [executeTradeStrategy, hp, hc, if_neg hs1, if_neg hs2, if_neg hs3]
    rfl
  exact ⟨he, by simp [tickBot, he]⟩

/-- C9 witness: the `macd` strategy id (present in the UI registry, absent
from the engine switch) on a succeeding gateway completes the tick with a
HOLD "Unknown strategy" status. -/
theorem unknown_strategy_tick_witness :
    unknownConfig.strategy ≠ "simpleMovingAverage" ∧
    gwXover.prices = .ok 60 ∧
    (tickBot gwXover unknownConfig "BNBUSDT-1000" 1000
        (initialBotState unknownConfig "BNBUSDT-1000" 1000)).events =
      [.statusRunning "BNBUSDT-1000" (some 1000) (some .HOLD) "Unknown strategy" 0 0] ∧
    (tickBot gwXover unknownConfig "BNBUSDT-1000" 1000
        (initialBotState unknownConfig "BNBUSDT-1000" 1000)).jobCancelled = false := by
  have h := unknown_strategy_tick gwXover unknownConfig "BNBUSDT-1000" 1000
    (initialBotState unknownConfig "BNBUSDT-1000" 1000) 60 xoverCandles
    (by decide) (by decide) (by decide) rfl rfl
  refine ⟨by decide, rfl, ?_, ?_⟩
  · rw [h.2]
    rfl
  · rw [h.2]

/-- C1 (code bug). On a tick whose signal is BUY, the engine increments
`tradesExecuted` and appends a trade record even though no market order is
placed anywhere in the tick (the callback never calls the gateway's order
endpoint: `gatewayOrders` is empty); the trade is recorded as executed
despite no order having been submitted, contradicting the claim that
counters and trade records advance only after a successful placement. -/
theorem tick_counts_trade_without_order :
    executeTradeStrategy gwXover demoConfig =
      .ok { action := .BUY, price := 60, quantity := 1 / 10,
            reason := "SMA bullish crossover detected" } ∧
    (initialBotState demoConfig "BNBUSDT-1000" 1000).tradesExecuted = 0 ∧
    (tickBot gwXover demoConfig "BNBUSDT-1000" 1000
        (initialBotState demoConfig "BNBUSDT-1000" 1000)).state.tradesExecuted = 1 ∧
    (tickBot gwXover demoConfig "BNBUSDT-1000" 1000
        (initialBotState demoConfig "BNBUSDT-1000" 1000)).gatewayOrders = [] ∧
    ((tickBot gwXover demoConfig "BNBUSDT-1000" 1000
        (initialBotState demoConfig "BNBUSDT-1000" 1000)).writes.map Prod.fst) =
      ["trade_bot_BNBUSDT-1000_1000", "bot_state_BNBUSDT-1000"] := by
  have hsma : executeSimpleMovingAverage xoverCandles =
      { action := .BUY, reason := "SMA bullish crossover detected" } := by
    norm_num [executeSimpleMovingAverage, calculateSMA, smaAt, xoverCandles,
      xoverCloses, mkCandle, List.range']
  have he : executeTradeStrategy gwXover demoConfig =
      .ok { action := .BUY, price := 60, quantity := 1 / 10,
            reason := "SMA bullish crossover detected" } := by
    simp [executeTradeStrategy, gwXover, demoConfig, hsma]
    rfl
  refine ⟨he, rfl, ?_, ?_, ?_⟩
  · simp [tickBot, he, initialBotState]
  · simp [tickBot, he]
  · simp [tickBot, he]
    constructor

/-- Removing the key at the head of the registry leaves exactly the tail
when the key does not recur. -/
lemma removeBot_cons_self (k : String) (e : RegEntry) (reg : Registry)
    (h : k ∉ reg.map Prod.fst) :
    removeBot ((k, e) :: reg) k = reg := by
  simp only [removeBot, List.filter_cons]
  have h1 : (decide ((k, e).1 ≠ k)) = false := by simp
  rw [h1]
  simp only [Bool.false_eq_true, if_false]
  apply List.filter_eq_self.mpr
  intro a ha
  have : a.1 ∈ reg.map Prod.fst := List.mem_map_of_mem Prod.fst ha
  simp only [decide_eq_true_eq]
  intro hak
  exact h (hak ▸ this)

/-- Stopping every snapshot id of a registry with unique keys and live job
handles empties the registry and counts every entry. -/
lemma stopAll_go (now : Int) :
    ∀ (ids : List String) (acc : StopAllOutcome),
      acc.registry.map Prod.fst = ids → ids.Nodup →
      (∀ e ∈ acc.registry, e.2.hasJob = true) →
      (ids.foldl (stopAllStep now) acc).count = acc.count + ids.length ∧
      (ids.foldl (stopAllStep now) acc).registry = [] := by
  intro ids
  induction ids with
  | nil =>
    intro acc hmap _ _
    refine ⟨by simp, ?_⟩
    simpa using List.map_eq_nil_iff.mp hmap
  | cons id rest ih =>
    intro acc hmap hnd hjobs
    rcases hreg : acc.registry with _ | ⟨⟨k, e⟩, reg'⟩
    · rw [hreg] at hmap
      simp at hmap
    · rw [hreg] at hmap
      simp only [List.map_cons, List.cons.injEq] at hmap
      obtain ⟨hk, hrest⟩ := hmap
      have hid : id ∉ rest := (List.nodup_cons.mp hnd).1
      have hndr : rest.Nodup := (List.nodup_cons.mp hnd).2
      have hjob : e.hasJob = true := by
        apply hjobs (k, e)
        rw [hreg]
        exact List.mem_cons_self _ _
      have hlook : lookupBot acc.registry id = some e := by
        rw [hreg]
        simp [lookupBot, hk]
      have hremove : removeBot acc.registry id = reg' := by
        rw [hreg, ← hk]
        exact removeBot_cons_self k e reg' (by rw [hk, hrest]; exact hid)
      have hstop : stopTradingBot acc.registry id now =
          { registry := reg',
            writes := [("bot_final_state_" ++ id, finalStateJ e.state now),
                       ("active_bot_" ++ id, .null)],
            cancelled := [id], stopped := true } := by
        simp [stopTradingBot, hlook, hjob, hremove]
      have hstep : stopAllStep now acc id =
          { registry := reg',
            writes := acc.writes ++ [("bot_final_state_" ++ id, finalStateJ e.state now),
                       ("active_bot_" ++ id, .null)],
            cancelled := acc.cancelled ++ [id],
            count := acc.count + 1 } := by
        simp [stopAllStep, hstop]
      rw [List.foldl_cons, hstep]
      have hjr : ∀ e' ∈ reg', e'.2.hasJob = true := by
        intro e' he'
        apply hjobs e'
        rw [hreg]
        exact List.mem_cons_of_mem _ he'
      have hres := ih ⟨reg',
          acc.writes ++ [("bot_final_state_" ++ id, finalStateJ e.state now),
            ("active_bot_" ++ id, JVal.null)],
          acc.cancelled ++ [id], acc.count + 1⟩ hrest hndr hjr
      refine ⟨?_, hres.2⟩
      rw [hres.1]
      simp only [List.length_cons]
      omega

/-- C7. Stopping a registered bot with a job handle cancels that job,
persists a final state (status "stopped" plus a `stopTime` timestamp, via
`finalStateJ`) and nulls the active-bot record, removes the bot from the
registry and returns true; stopping an id that is not registered does
nothing and returns false (not an error); stopping with no id stops every
registered bot and returns the count stopped (the whole registry, when
keys are unique and all entries hold job handles). -/
theorem stop_semantics :
    (∀ (reg : Registry) (botId : String) (now : Int) (bot : RegEntry),
      lookupBot reg botId = some bot → bot.hasJob = true →
      stopTradingBot reg botId now =
        { registry := removeBot reg botId,
          writes := [("bot_final_state_" ++ botId, finalStateJ bot.state now),
                     ("active_bot_" ++ botId, .null)],
          cancelled := [botId],
          stopped := true }) ∧
    (∀ (reg : Registry) (botId : String) (now : Int),
      lookupBot reg botId = none →
      stopTradingBot reg botId now =
        { registry := reg, writes := [], cancelled := [], stopped := false }) ∧
    (∀ (reg : Registry) (now : Int),
      (reg.map Prod.fst).Nodup → (∀ e ∈ reg, e.2.hasJob = true) →
      (stopAllTradingBots reg now).count = reg.length ∧
      (stopAllTradingBots reg now).registry = []) := by
  refine ⟨?_, ?_, ?_⟩
  · intro reg botId now bot hlook hjob
    simp [stopTradingBot, hlook, hjob]
  · intro reg botId now hlook
    simp [stopTradingBot, hlook]
  · intro reg now hnd hjobs
    have h := stopAll_go now (reg.map Prod.fst)
      { registry := reg, writes := [], cancelled := [], count := 0 } rfl hnd hjobs
    rw [stopAllTradingBots]
    refine ⟨?_, h.2⟩
    rw [h.1]
    simp

/-- C7 witness: on a concrete two-bot registry, stopping a present id
succeeds, stopping an absent id is a false-returning no-op, and stopping
all bots stops both and empties the registry. -/
theorem stop_semantics_witness :
    lookupBot reg2 "BNBUSDT-1" = some regEntryA ∧
    stopTradingBot reg2 "BNBUSDT-1" 99 =
      { registry := removeBot reg2 "BNBUSDT-1",
        writes := [("bot_final_state_" ++ "BNBUSDT-1", finalStateJ regEntryA.state 99),
                   ("active_bot_" ++ "BNBUSDT-1", .null)],
        cancelled := ["BNBUSDT-1"],
        stopped := true } ∧
    lookupBot reg2 "GONE" = none ∧
    stopTradingBot reg2 "GONE" 99 =
      { registry := reg2, writes := [], cancelled := [], stopped := false } ∧
    (stopAllTradingBots reg2 99).count = reg2.length ∧
    (stopAllTradingBots reg2 99).registry = [] := by
  have hall := stop_semantics.2.2 reg2 99 (by decide) (by decide)
  exact ⟨rfl, stop_semantics.1 reg2 "BNBUSDT-1" 99 regEntryA rfl rfl, rfl,
    stop_semantics.2.1 reg2 "GONE" 99 rfl, hall.1, hall.2⟩

/-- C8 counterexample: on a concrete start request, exactly one of the
engine's persisted writes — the `bot_config_<id>` record — contains both
the plaintext API key and the plaintext API secret of the configuration
(the storage layer applies no encryption or redaction; the write even
happens before the connectivity probe). -/
theorem credentials_persisted_counterexample :
    demoConfig.apiConfig.apiKey = "DEMO-PLAINTEXT-KEY" ∧
    demoConfig.apiConfig.apiSecret = "DEMO-PLAINTEXT-SECRET" ∧
    (((startTradingBot gwXover demoConfig 1000).writes.filter
        (fun w => w.2.strings.contains "DEMO-PLAINTEXT-KEY" &&
          w.2.strings.contains "DEMO-PLAINTEXT-SECRET")).map Prod.fst)
      = ["bot_config_BNBUSDT-1000"] := by
  refine ⟨rfl, rfl, rfl⟩

/-- C8 amended. The engine's bot-config, bot-state, bot-error and
final-state writes all embed the full configuration and therefore contain
the plaintext API key and secret; only the active-bot record and the trade
record are credential-free (their stored string atoms are exactly the
listed non-credential fields). -/
theorem credentials_in_config_and_state_writes (c : BotConfig)
    (botId id symbol strategy reason status : String) (now ts : Int) (s : BotState)
    (side : Action) (quantity price : ℚ) :
    c.apiConfig.apiKey ∈ (botConfigJ c botId now status).strings ∧
    c.apiConfig.apiSecret ∈ (botConfigJ c botId now status).strings ∧
    s.config.apiConfig.apiKey ∈ (BotState.toJ s).strings ∧
    s.config.apiConfig.apiSecret ∈ (BotState.toJ s).strings ∧
    c.apiConfig.apiKey ∈ (botErrorJ botId reason ts c).strings ∧
    s.config.apiConfig.apiKey ∈ (finalStateJ s now).strings ∧
    (activeBotJ botId symbol strategy now).strings = [botId, symbol, strategy, "active"] ∧
    (tradeJ id botId symbol side quantity price ts strategy reason).strings =
      [id, botId, symbol, side.toStr, strategy, reason, "trading_bot_auto"] := by
  refine ⟨?_, ?_, ?_, ?_, ?_, ?_, rfl, rfl⟩ <;>
    simp [botConfigJ, BotConfig.fieldsJ, BotConfig.toJ, BotState.toJ, BotState.fieldsJ,
      finalStateJ, botErrorJ, JVal.strings, stringsOfFields, stringsOfList]

end NeutronTrader
